import Mathlib

/-!
Verification development for the nextjs-dashboard seeding route.

The repository exposes an HTTP GET route that seeds four Postgres tables
(users, customers, invoices, revenue) from static fixture lists, inside a
single BEGIN/COMMIT transaction with ROLLBACK on any error.  This file is a
shallow embedding of that route:

  - fixture records mirror the TypeScript types in src/app/lib/definitions.ts
    (User, Customer, Invoice with its two-value status union, Revenue);
  - the database is a `DBState` of four row lists plus a counter that models
    the `uuid_generate_v4()` default generating fresh invoice ids (the
    invoices insert supplies no id column);
  - each `INSERT ... ON CONFLICT (target) DO NOTHING` is a function that
    skips silently on a conflict with the named arbiter column, raises a
    `SqlError.uniqueViolation` on a conflict with any other unique
    constraint (only users.email has one), and appends otherwise;
  - `CREATE EXTENSION` / `CREATE TABLE IF NOT EXISTS` are identity on this
    state model (a table is its list of rows; an absent table and an empty
    table both have row count zero, and a rolled-back transaction restores
    the whole pre-invocation state, DDL included, as Postgres does);
  - bcrypt is an external primitive, modelled as a bundled `HashPrimitive`
    whose contract fields state the library guarantees the spec relies on
    (output differs from the plaintext; comparison against the plaintext
    succeeds); salt generation is internal to the primitive;
  - the route handler `GET` mirrors the try/catch of the source: BEGIN, the
    four seed steps in order, COMMIT, and on any thrown error a ROLLBACK
    followed by a 500 response; a failure of BEGIN/COMMIT/ROLLBACK itself is
    injected through an `Env` of optional errors, since those statements only
    fail for reasons outside the model.  `GET` also records a trace of the
    top-level statements it executed, and its outcome is `Except`-valued:
    `.ok` is a returned `Response`, `.error` is an exception that escaped the
    handler (an unhandled rejection).

Within one group the source issues its inserts via `Promise.all` on a single
pooled connection, which serializes the statements in list order; the model
folds the inserts sequentially in that order.
-/

/-- A user fixture record, mirroring `User` in definitions.ts. -/
structure User where
  id : String
  name : String
  email : String
  password : String
deriving Repr, DecidableEq

/-- A customer fixture record, mirroring `Customer` in definitions.ts. -/
structure Customer where
  id : String
  name : String
  email : String
  image_url : String
deriving Repr, DecidableEq

/-- The two-value status union of `Invoice` in definitions.ts. -/
inductive InvoiceStatus where
  | pending
  | paid
deriving Repr, DecidableEq

/-- The string stored for an invoice status. -/
def statusStr : InvoiceStatus → String
  | InvoiceStatus.pending => "pending"
  | InvoiceStatus.paid => "paid"

/-- An invoice fixture record, mirroring `Invoice` in definitions.ts.
The seed insert never reads the `id` field. -/
structure Invoice where
  id : String
  customer_id : String
  amount : Int
  date : String
  status : InvoiceStatus
deriving Repr, DecidableEq

/-- A revenue fixture record, mirroring `Revenue` in definitions.ts. -/
structure Revenue where
  month : String
  revenue : Int
deriving Repr, DecidableEq

/-- A stored row of the users table (password already hashed). -/
structure UserRow where
  id : String
  name : String
  email : String
  password : String
deriving Repr, DecidableEq

/-- A stored row of the customers table. -/
structure CustomerRow where
  id : String
  name : String
  email : String
  image_url : String
deriving Repr, DecidableEq

/-- A stored row of the invoices table.  Its id is database-generated
(`uuid_generate_v4()` default), modelled as a natural number drawn from the
state's fresh-id counter. -/
structure InvoiceRow where
  id : Nat
  customer_id : String
  amount : Int
  status : String
  date : String
deriving Repr, DecidableEq

/-- A stored row of the revenue table. -/
structure RevenueRow where
  month : String
  revenue : Int
deriving Repr, DecidableEq

/-- The database state: the four tables and the generator counter for fresh
invoice ids. -/
structure DBState where
  users : List UserRow
  customers : List CustomerRow
  invoices : List InvoiceRow
  revenue : List RevenueRow
  nextInvoiceId : Nat
deriving Repr, DecidableEq

/-- The empty database every concrete scenario starts from. -/
def emptyDB : DBState :=
  { users := [], customers := [], invoices := [], revenue := [], nextInvoiceId := 0 }

/-- An error raised by a SQL statement. -/
inductive SqlError where
  | uniqueViolation (constraintName : String)
  | dbFailure (message : String)
deriving Repr, DecidableEq

/-- The external one-way hash primitive (bcrypt), bundled with the library
guarantees the spec relies on: hashing never returns the plaintext, and the
comparison check accepts the plaintext against its own hash.  The argument
order mirrors `bcrypt.hash(password, costFactor)` and
`bcrypt.compare(plaintext, digest)`. -/
structure HashPrimitive where
  hash : String → Nat → String
  compare : String → String → Bool
  hash_ne : ∀ pw cost, hash pw cost ≠ pw
  compare_hash : ∀ pw cost, compare pw (hash pw cost) = true

/-- The row stored for a user fixture: the password field holds
`bcrypt.hash(user.password, 10)`, computed before the insert. -/
def hashedUserRow (B : HashPrimitive) (u : User) : UserRow :=
  { id := u.id, name := u.name, email := u.email, password := B.hash u.password 10 }

/-- One statement `INSERT INTO users (id, name, email, password) VALUES ...
ON CONFLICT (id) DO NOTHING`.  A conflict on the arbiter column id skips the
row silently; a conflict on the unique email column of another row is not
covered by the arbiter and raises a unique violation. -/
def insertUser (B : HashPrimitive) (s : DBState) (u : User) : Except SqlError DBState :=
  if s.users.any (fun r => r.id == u.id) then Except.ok s
  else if s.users.any (fun r => r.email == u.email) then
    Except.error (SqlError.uniqueViolation "users_email_key")
  else Except.ok { s with users := s.users ++ [hashedUserRow B u] }

/-- One statement `INSERT INTO customers (id, name, email, image_url)
VALUES ... ON CONFLICT (id) DO NOTHING`.  The customers table has no unique
constraint besides its primary key, so no error is possible. -/
def insertCustomer (s : DBState) (c : Customer) : Except SqlError DBState :=
  if s.customers.any (fun r => r.id == c.id) then Except.ok s
  else
    let row : CustomerRow := { id := c.id, name := c.name, email := c.email, image_url := c.image_url }
    Except.ok { s with customers := s.customers ++ [row] }

/-- One statement `INSERT INTO invoices (customer_id, amount, status, date)
VALUES ... ON CONFLICT (id) DO NOTHING`.  No id is supplied, so the id
defaults to a freshly generated one; the fixture's id field is never read. -/
def insertInvoice (s : DBState) (inv : Invoice) : Except SqlError DBState :=
  let newId := s.nextInvoiceId
  if s.invoices.any (fun r => r.id == newId) then
    Except.ok { s with nextInvoiceId := s.nextInvoiceId + 1 }
  else
    let row : InvoiceRow := ⟨newId, inv.customer_id, inv.amount, statusStr inv.status, inv.date⟩
    Except.ok { s with invoices := s.invoices ++ [row], nextInvoiceId := s.nextInvoiceId + 1 }

/-- One statement `INSERT INTO revenue (month, revenue) VALUES ...
ON CONFLICT (month) DO NOTHING`. -/
def insertRevenue (s : DBState) (rev : Revenue) : Except SqlError DBState :=
  if s.revenue.any (fun r => r.month == rev.month) then Except.ok s
  else
    let row : RevenueRow := { month := rev.month, revenue := rev.revenue }
    Except.ok { s with revenue := s.revenue ++ [row] }

/-- The insert batch of seedUsers, in fixture-list order. -/
def seedUsersFrom (B : HashPrimitive) : List User → DBState → Except SqlError DBState
  | [], s => Except.ok s
  | u :: rest, s =>
    match insertUser B s u with
    | Except.error e => Except.error e
    | Except.ok s2 => seedUsersFrom B rest s2

/-- `seedUsers`: ensure the extension and table exist (identity on this state
model), then insert every user fixture with its password hashed. -/
def seedUsers (B : HashPrimitive) (s : DBState) (us : List User) : Except SqlError DBState :=
  seedUsersFrom B us s

/-- The insert batch of seedCustomers, in fixture-list order. -/
def seedCustomersFrom : List Customer → DBState → Except SqlError DBState
  | [], s => Except.ok s
  | c :: rest, s =>
    match insertCustomer s c with
    | Except.error e => Except.error e
    | Except.ok s2 => seedCustomersFrom rest s2

/-- `seedCustomers`: ensure the table exists, then insert every customer. -/
def seedCustomers (s : DBState) (cs : List Customer) : Except SqlError DBState :=
  seedCustomersFrom cs s

/-- The insert batch of seedInvoices, in fixture-list order. -/
def seedInvoicesFrom : List Invoice → DBState → Except SqlError DBState
  | [], s => Except.ok s
  | inv :: rest, s =>
    match insertInvoice s inv with
    | Except.error e => Except.error e
    | Except.ok s2 => seedInvoicesFrom rest s2

/-- `seedInvoices`: ensure the table exists, then insert every invoice. -/
def seedInvoices (s : DBState) (is : List Invoice) : Except SqlError DBState :=
  seedInvoicesFrom is s

/-- The insert batch of seedRevenue, in fixture-list order. -/
def seedRevenueFrom : List Revenue → DBState → Except SqlError DBState
  | [], s => Except.ok s
  | rev :: rest, s =>
    match insertRevenue s rev with
    | Except.error e => Except.error e
    | Except.ok s2 => seedRevenueFrom rest s2

/-- `seedRevenue`: ensure the table exists, then insert every revenue row. -/
def seedRevenue (s : DBState) (rs : List Revenue) : Except SqlError DBState :=
  seedRevenueFrom rs s

/-- The static fixture lists imported from placeholder-data. -/
structure Fixtures where
  users : List User
  customers : List Customer
  invoices : List Invoice
  revenue : List Revenue
deriving Repr, DecidableEq

/-- The body of the try block of GET between BEGIN and COMMIT: the four
seeding steps awaited strictly in order, stopping at the first error. -/
def runSeeds (B : HashPrimitive) (fx : Fixtures) (s : DBState) : Except SqlError DBState :=
  match seedUsers B s fx.users with
  | Except.error e => Except.error e
  | Except.ok s1 =>
    match seedCustomers s1 fx.customers with
    | Except.error e => Except.error e
    | Except.ok s2 =>
      match seedInvoices s2 fx.invoices with
      | Except.error e => Except.error e
      | Except.ok s3 => seedRevenue s3 fx.revenue

/-- The body of the JSON response. -/
inductive ResponseBody where
  | messageBody (message : String)
  | errorBody (error : SqlError)
deriving Repr, DecidableEq

/-- An HTTP response: a status code and a JSON body. -/
structure Response where
  status : Nat
  body : ResponseBody
deriving Repr, DecidableEq

/-- `Response.json(\x7b message: 'Database seeded successfully' \x7d)` with the
default status 200. -/
def successResponse : Response :=
  { status := 200, body := ResponseBody.messageBody "Database seeded successfully" }

/-- `Response.json(\x7b error \x7d, \x7b status: 500 \x7d)`. -/
def failureResponse (e : SqlError) : Response :=
  { status := 500, body := ResponseBody.errorBody e }

/-- One of the four group-seeding steps. -/
inductive SeedStep where
  | users
  | customers
  | invoices
  | revenue
deriving Repr, DecidableEq

/-- A top-level statement executed by the GET handler. -/
inductive TxAction where
  | beginTx
  | runStep (step : SeedStep)
  | commitTx
  | rollbackTx
deriving Repr, DecidableEq

/-- Failure injection for the transaction-control statements, which in the
source can only fail for reasons outside this state model (connection loss
and the like).  `none` means the statement succeeds. -/
structure Env where
  beginErr : Option SqlError
  commitErr : Option SqlError
  rollbackErr : Option SqlError
deriving Repr, DecidableEq

/-- The environment in which every transaction-control statement succeeds. -/
def env0 : Env := { beginErr := none, commitErr := none, rollbackErr := none }

/-- Decidable equality of Except values, used to evaluate concrete scenarios. -/
instance {ε α : Type} [DecidableEq ε] [DecidableEq α] : DecidableEq (Except ε α) := fun a b =>
  match a, b with
  | Except.ok x, Except.ok y =>
    if h : x = y then isTrue (by rw [h]) else isFalse (by intro hc; cases hc; exact h rfl)
  | Except.error e, Except.error f =>
    if h : e = f then isTrue (by rw [h]) else isFalse (by intro hc; cases hc; exact h rfl)
  | Except.ok _, Except.error _ => isFalse (by intro hc; cases hc)
  | Except.error _, Except.ok _ => isFalse (by intro hc; cases hc)

/-- What one invocation of GET did: its outcome (`.ok` a returned response
together with the committed database state, `.error` an exception that
escaped the handler), and the trace of top-level statements it executed. -/
structure GETResult where
  outcome : Except SqlError (DBState × Response)
  trace : List TxAction
deriving Repr, DecidableEq

/-- The catch block of GET: await ROLLBACK, then return the 500 response
carrying the caught error.  If ROLLBACK itself throws, that rejection
escapes the handler (there is no nested try), so no response is produced.
A successful rollback restores the pre-invocation state `s`. -/
def catchBlock (env : Env) (s : DBState) (e : SqlError) (tr : List TxAction) : GETResult :=
  match env.rollbackErr with
  | some e2 => { outcome := Except.error e2, trace := tr ++ [TxAction.rollbackTx] }
  | none => { outcome := Except.ok (s, failureResponse e), trace := tr ++ [TxAction.rollbackTx] }

/-- The GET handler: BEGIN, the four seeding steps in fixed order, COMMIT,
success response; on any thrown error, the catch block rolls back and
returns the 500 response. -/
def GET (B : HashPrimitive) (env : Env) (fx : Fixtures) (s : DBState) : GETResult :=
  match env.beginErr with
  | some e => catchBlock env s e [TxAction.beginTx]
  | none =>
    match seedUsers B s fx.users with
    | Except.error e =>
      catchBlock env s e [TxAction.beginTx, TxAction.runStep SeedStep.users]
    | Except.ok s1 =>
      match seedCustomers s1 fx.customers with
      | Except.error e =>
        catchBlock env s e
          [TxAction.beginTx, TxAction.runStep SeedStep.users, TxAction.runStep SeedStep.customers]
      | Except.ok s2 =>
        match seedInvoices s2 fx.invoices with
        | Except.error e =>
          catchBlock env s e
            [TxAction.beginTx, TxAction.runStep SeedStep.users, TxAction.runStep SeedStep.customers,
              TxAction.runStep SeedStep.invoices]
        | Except.ok s3 =>
          match seedRevenue s3 fx.revenue with
          | Except.error e =>
            catchBlock env s e
              [TxAction.beginTx, TxAction.runStep SeedStep.users, TxAction.runStep SeedStep.customers,
                TxAction.runStep SeedStep.invoices, TxAction.runStep SeedStep.revenue]
          | Except.ok s4 =>
            match env.commitErr with
            | some e =>
              catchBlock env s e
                [TxAction.beginTx, TxAction.runStep SeedStep.users, TxAction.runStep SeedStep.customers,
                  TxAction.runStep SeedStep.invoices, TxAction.runStep SeedStep.revenue,
                  TxAction.commitTx]
            | none =>
              { outcome := Except.ok (s4, successResponse),
                trace := [TxAction.beginTx, TxAction.runStep SeedStep.users,
                  TxAction.runStep SeedStep.customers, TxAction.runStep SeedStep.invoices,
                  TxAction.runStep SeedStep.revenue, TxAction.commitTx] }

/-- Projection of the database state a returned response committed to. -/
def outcomeState (g : GETResult) : Option DBState :=
  match g.outcome with
  | Except.ok p => some p.1
  | Except.error _ => none

/-- Projection of the response an invocation returned, if any. -/
def outcomeResponse (g : GETResult) : Option Response :=
  match g.outcome with
  | Except.ok p => some p.2
  | Except.error _ => none

/-- The row counts of the four tables, in table order. -/
def rowCounts (s : DBState) : Nat × Nat × Nat × Nat :=
  (s.users.length, s.customers.length, s.invoices.length, s.revenue.length)

/-- Whether every invoice row references some existing customer row. -/
def invoicesReferenceCustomers (s : DBState) : Bool :=
  s.invoices.all (fun r => s.customers.any (fun c => c.id == r.customer_id))

/-- Whether every stored invoice id is below the generator counter, so the
next generated id is fresh. -/
def invoiceIdsFresh (s : DBState) : Bool :=
  s.invoices.all (fun r => decide (r.id < s.nextInvoiceId))

/-- A concrete hash function witnessing the bcrypt contract: it prepends the
bcrypt format prefix to the plaintext, which is enough to satisfy both
contract fields. -/
def modelHash (pw : String) (_cost : Nat) : String := "$2b$10$" ++ pw

/-- A concrete instance of the bcrypt contract, used to evaluate the model on
concrete scenarios. -/
def modelBcrypt : HashPrimitive where
  hash := modelHash
  compare := fun pw digest => digest == modelHash pw 10
  hash_ne := by
    intro pw cost h
    have hlen : (modelHash pw cost).length = pw.length := by rw [h]
    rw [modelHash, String.length_append] at hlen
    have hpre : ("$2b$10$" : String).length = 7 := rfl
    omega
  compare_hash := by
    intro pw cost
    simp [modelHash]

/-- The concrete scenario fixture of the spec: one user, one customer, one
invoice referencing that customer, one revenue month. -/
def fx1 : Fixtures :=
  { users := [⟨"410544b2-4001-4271-9855-fec4b6a6442a", "User", "user@nextmail.com", "123456"⟩],
    customers := [⟨"d6e15727-9fe1-426c-a2bb-54eb05296a51", "Evil Rabbit", "evil@rabbit.com", "/customers/evil-rabbit.png"⟩],
    invoices := [⟨"fixture-invoice-1", "d6e15727-9fe1-426c-a2bb-54eb05296a51", 15795, "2022-12-06", InvoiceStatus.pending⟩],
    revenue := [⟨"Dec", 4800⟩] }

/-- The database state after one successful invocation on `fx1`. -/
def state1 : DBState :=
  { users := [⟨"410544b2-4001-4271-9855-fec4b6a6442a", "User", "user@nextmail.com", "$2b$10$123456"⟩],
    customers := [⟨"d6e15727-9fe1-426c-a2bb-54eb05296a51", "Evil Rabbit", "evil@rabbit.com", "/customers/evil-rabbit.png"⟩],
    invoices := [⟨0, "d6e15727-9fe1-426c-a2bb-54eb05296a51", 15795, "pending", "2022-12-06"⟩],
    revenue := [⟨"Dec", 4800⟩],
    nextInvoiceId := 1 }

/-- A fixture with two users of distinct ids sharing one email address: the
second insert conflicts with the unique email constraint, which the
`ON CONFLICT (id)` arbiter does not cover. -/
def fxDup : Fixtures :=
  { users := [⟨"id-1", "Alice", "shared@mail.com", "pw1"⟩, ⟨"id-2", "Bob", "shared@mail.com", "pw2"⟩],
    customers := [], invoices := [], revenue := [] }

/-- A fixture whose only invoice references a customer id that no customer
fixture carries. -/
def fxBadFk : Fixtures :=
  { users := [], customers := [],
    invoices := [⟨"fixture-invoice-1", "no-such-customer", 100, "2024-01-01", InvoiceStatus.paid⟩],
    revenue := [] }

/-- An environment in which the ROLLBACK statement itself fails. -/
def envRB : Env :=
  { beginErr := none, commitErr := none,
    rollbackErr := some (SqlError.dbFailure "rollback failed") }


/-- The fixed order of the four group-seeding steps in the handler body. -/
def seedOrder : List SeedStep :=
  [SeedStep.users, SeedStep.customers, SeedStep.invoices, SeedStep.revenue]

/-- The group-seeding steps recorded in a trace, in execution order. -/
def stepsOf (tr : List TxAction) : List SeedStep :=
  tr.filterMap (fun a => match a with
    | TxAction.runStep st => some st
    | _ => none)

/-- The stored user row of the `fx1` scenario under `modelBcrypt`. -/
def rowW : UserRow :=
  ⟨"410544b2-4001-4271-9855-fec4b6a6442a", "User", "user@nextmail.com", "$2b$10$123456"⟩

/-- The stored invoice row of the `fx1` scenario. -/
def invRowW : InvoiceRow :=
  ⟨0, "d6e15727-9fe1-426c-a2bb-54eb05296a51", 15795, "pending", "2022-12-06"⟩

/-- A single invoice fixture used to exercise `insertInvoice` directly. -/
def invW : Invoice := ⟨"fixture-invoice-7", "cust-1", 100, "2024-01-01", InvoiceStatus.paid⟩

/-- A successful rollback turns the caught error into the 500 response over
the pre-invocation state. -/
theorem catchBlock_outcome_rollbackOk (env : Env) (s : DBState) (e : SqlError)
    (tr : List TxAction) (hrb : env.rollbackErr = none) :
    (catchBlock env s e tr).outcome = Except.ok (s, failureResponse e) := by
  unfold catchBlock
  rw [hrb]

/-- A failing rollback makes its own error escape the handler. -/
theorem catchBlock_outcome_rollbackFail (env : Env) (s : DBState) (e e2 : SqlError)
    (tr : List TxAction) (hrb : env.rollbackErr = some e2) :
    (catchBlock env s e tr).outcome = Except.error e2 := by
  unfold catchBlock
  rw [hrb]

/-- Whenever the catch block produces a response at all, the response is the
500 failure response over the caught error and the state is the rolled-back
pre-invocation state. -/
theorem catchBlock_outcome_ok_inv (env : Env) (s s2 : DBState) (e : SqlError) (r : Response)
    (tr : List TxAction) (h : (catchBlock env s e tr).outcome = Except.ok (s2, r)) :
    s2 = s ∧ r = failureResponse e := by
  unfold catchBlock at h
  cases hrb : env.rollbackErr with
  | none =>
    rw [hrb] at h
    simp only [Except.ok.injEq, Prod.mk.injEq] at h
    exact ⟨h.1.symm, h.2.symm⟩
  | some e2 =>
    rw [hrb] at h
    simp at h

/-- When BEGIN succeeds and some seeding step throws, GET runs its catch
block on the thrown error over the pre-invocation state. -/
theorem GET_of_seedError (B : HashPrimitive) (env : Env) (fx : Fixtures) (s : DBState)
    (e : SqlError) (hb : env.beginErr = none) (h : runSeeds B fx s = Except.error e) :
    ∃ tr, GET B env fx s = catchBlock env s e tr := by
  unfold runSeeds at h
  unfold GET
  rw [hb]
  split at h
  next e1 heq =>
    cases h
    exact ⟨_, rfl⟩
  next s1 heq =>
    split at h
    next e1 heq2 =>
      cases h
      exact ⟨_, rfl⟩
    next s2 heq2 =>
      split at h
      next e1 heq3 =>
        cases h
        exact ⟨_, rfl⟩
      next s3 heq3 =>
        rw [h]
        exact ⟨_, rfl⟩

/-- When BEGIN succeeds, all four seeding steps succeed and COMMIT succeeds,
GET commits the seeded state, returns the success response, and its trace is
the full statement sequence. -/
theorem GET_of_success (B : HashPrimitive) (env : Env) (fx : Fixtures) (s s4 : DBState)
    (hb : env.beginErr = none) (hc : env.commitErr = none)
    (h : runSeeds B fx s = Except.ok s4) :
    GET B env fx s =
      { outcome := Except.ok (s4, successResponse),
        trace := [TxAction.beginTx, TxAction.runStep SeedStep.users,
          TxAction.runStep SeedStep.customers, TxAction.runStep SeedStep.invoices,
          TxAction.runStep SeedStep.revenue, TxAction.commitTx] } := by
  unfold runSeeds at h
  unfold GET
  rw [hb]
  split at h
  next e1 heq => cases h
  next s1 heq =>
    split at h
    next e1 heq2 => cases h
    next s2 heq2 =>
      split at h
      next e1 heq3 => cases h
      next s3 heq3 =>
        rw [h, hc]

/-- When BEGIN succeeds, all four seeding steps succeed but COMMIT throws,
GET runs its catch block on the commit error. -/
theorem GET_of_commitError (B : HashPrimitive) (env : Env) (fx : Fixtures) (s s4 : DBState)
    (e : SqlError) (hb : env.beginErr = none) (hc : env.commitErr = some e)
    (h : runSeeds B fx s = Except.ok s4) :
    ∃ tr, GET B env fx s = catchBlock env s e tr := by
  unfold runSeeds at h
  unfold GET
  rw [hb]
  split at h
  next e1 heq => cases h
  next s1 heq =>
    split at h
    next e1 heq2 => cases h
    next s2 heq2 =>
      split at h
      next e1 heq3 => cases h
      next s3 heq3 =>
        rw [h, hc]
        exact ⟨_, rfl⟩

/-- When BEGIN itself throws, GET runs its catch block on the begin error
without running any seeding step. -/
theorem GET_of_beginError (B : HashPrimitive) (env : Env) (fx : Fixtures) (s : DBState)
    (e : SqlError) (hb : env.beginErr = some e) :
    GET B env fx s = catchBlock env s e [TxAction.beginTx] := by
  unfold GET
  rw [hb]

/-- Any state a returned response commits to is either the rolled-back
pre-invocation state or the state the four seeding steps produced. -/
theorem GET_outcome_ok_inv (B : HashPrimitive) (env : Env) (fx : Fixtures) (s s2 : DBState)
    (r : Response) (h : (GET B env fx s).outcome = Except.ok (s2, r)) :
    s2 = s ∨ runSeeds B fx s = Except.ok s2 := by
  cases hb : env.beginErr with
  | some e =>
    rw [GET_of_beginError B env fx s e hb] at h
    exact Or.inl (catchBlock_outcome_ok_inv env s s2 e r _ h).1
  | none =>
    cases hr : runSeeds B fx s with
    | error e =>
      obtain ⟨tr, htr⟩ := GET_of_seedError B env fx s e hb hr
      rw [htr] at h
      exact Or.inl (catchBlock_outcome_ok_inv env s s2 e r tr h).1
    | ok s4 =>
      cases hc : env.commitErr with
      | some e =>
        obtain ⟨tr, htr⟩ := GET_of_commitError B env fx s s4 e hb hc hr
        rw [htr] at h
        exact Or.inl (catchBlock_outcome_ok_inv env s s2 e r tr h).1
      | none =>
        rw [GET_of_success B env fx s s4 hb hc hr] at h
        simp only [Except.ok.injEq, Prod.mk.injEq] at h
        refine Or.inr ?_
        rw [h.1]

/-- A successful user insert leaves the other tables untouched and either
leaves the users table unchanged (id conflict) or appends the hashed row. -/
theorem insertUser_ok (B : HashPrimitive) (s : DBState) (u : User) (s2 : DBState)
    (h : insertUser B s u = Except.ok s2) :
    (s2.users = s.users ∨ s2.users = s.users ++ [hashedUserRow B u])
    ∧ s2.customers = s.customers ∧ s2.invoices = s.invoices
    ∧ s2.revenue = s.revenue ∧ s2.nextInvoiceId = s.nextInvoiceId := by
  unfold insertUser at h
  split at h
  · cases h
    exact ⟨Or.inl rfl, rfl, rfl, rfl, rfl⟩
  · split at h
    · cases h
    · cases h
      exact ⟨Or.inr rfl, rfl, rfl, rfl, rfl⟩

/-- After a successful batch of user inserts, every stored user row either
predates the batch or is the hashed image of some fixture user, and the
other tables are untouched. -/
theorem seedUsersFrom_ok (B : HashPrimitive) (us : List User) (s s2 : DBState)
    (h : seedUsersFrom B us s = Except.ok s2) :
    (∀ r ∈ s2.users, r ∈ s.users ∨ ∃ u ∈ us, r = hashedUserRow B u)
    ∧ s2.customers = s.customers ∧ s2.invoices = s.invoices
    ∧ s2.revenue = s.revenue ∧ s2.nextInvoiceId = s.nextInvoiceId := by
  induction us generalizing s with
  | nil =>
    unfold seedUsersFrom at h
    cases h
    exact ⟨fun r hr => Or.inl hr, rfl, rfl, rfl, rfl⟩
  | cons u rest ih =>
    unfold seedUsersFrom at h
    split at h
    next e heq => cases h
    next st heq =>
      obtain ⟨hu, hc, hi, hrev, hn⟩ := insertUser_ok B s u st heq
      obtain ⟨ihu, ihc, ihi, ihrev, ihn⟩ := ih st h
      refine ⟨?_, by rw [ihc, hc], by rw [ihi, hi], by rw [ihrev, hrev], by rw [ihn, hn]⟩
      intro r hr
      rcases ihu r hr with hmem | ⟨u2, hu2, hru⟩
      · rcases hu with h1 | h1
        · rw [h1] at hmem
          exact Or.inl hmem
        · rw [h1] at hmem
          rcases List.mem_append.mp hmem with h2 | h2
          · exact Or.inl h2
          · exact Or.inr ⟨u, List.mem_cons_self u rest, List.mem_singleton.mp h2⟩
      · exact Or.inr ⟨u2, List.mem_cons_of_mem u hu2, hru⟩

/-- A customer insert cannot fail; it leaves the other tables untouched,
never removes a customer row, and afterwards some customer row carries the
inserted customer's id. -/
theorem insertCustomer_ok (s : DBState) (c : Customer) (s2 : DBState)
    (h : insertCustomer s c = Except.ok s2) :
    (∃ row ∈ s2.customers, row.id = c.id)
    ∧ (∀ row ∈ s.customers, row ∈ s2.customers)
    ∧ s2.users = s.users ∧ s2.invoices = s.invoices
    ∧ s2.revenue = s.revenue ∧ s2.nextInvoiceId = s.nextInvoiceId := by
  unfold insertCustomer at h
  split at h
  next hconf =>
    cases h
    obtain ⟨row, hrow, hid⟩ := List.any_eq_true.mp hconf
    exact ⟨⟨row, hrow, eq_of_beq hid⟩, fun row2 h2 => h2, rfl, rfl, rfl, rfl⟩
  next hconf =>
    cases h
    refine ⟨⟨⟨c.id, c.name, c.email, c.image_url⟩, ?_, rfl⟩, ?_, rfl, rfl, rfl, rfl⟩
    · exact List.mem_append.mpr (Or.inr (List.mem_singleton.mpr rfl))
    · intro row2 h2
      exact List.mem_append.mpr (Or.inl h2)

/-- After a successful batch of customer inserts, every fixture customer's id
is carried by some stored customer row, old rows persist, and the other
tables are untouched. -/
theorem seedCustomersFrom_ok (cs : List Customer) (s s2 : DBState)
    (h : seedCustomersFrom cs s = Except.ok s2) :
    (∀ c ∈ cs, ∃ row ∈ s2.customers, row.id = c.id)
    ∧ (∀ row ∈ s.customers, row ∈ s2.customers)
    ∧ s2.users = s.users ∧ s2.invoices = s.invoices
    ∧ s2.revenue = s.revenue ∧ s2.nextInvoiceId = s.nextInvoiceId := by
  induction cs generalizing s with
  | nil =>
    unfold seedCustomersFrom at h
    cases h
    exact ⟨fun c hc => absurd hc (List.not_mem_nil c), fun row h2 => h2, rfl, rfl, rfl, rfl⟩
  | cons c rest ih =>
    unfold seedCustomersFrom at h
    split at h
    next e heq => cases h
    next st heq =>
      obtain ⟨⟨row, hrow, hid⟩, hmono, hu, hi, hrev, hn⟩ := insertCustomer_ok s c st heq
      obtain ⟨ihpres, ihmono, ihu, ihi, ihrev, ihn⟩ := ih st h
      refine ⟨?_, fun row2 h2 => ihmono row2 (hmono row2 h2),
        by rw [ihu, hu], by rw [ihi, hi], by rw [ihrev, hrev], by rw [ihn, hn]⟩
      intro c2 hc2
      rcases List.mem_cons.mp hc2 with rfl | h2
      · exact ⟨row, ihmono row hrow, hid⟩
      · exact ihpres c2 h2

/-- A successful invoice insert leaves the other tables untouched and either
leaves the invoices table unchanged (generated-id conflict) or appends a row
built from the fixture's customer_id, amount, status string, and date under
the freshly generated id. -/
theorem insertInvoice_ok (s : DBState) (inv : Invoice) (s2 : DBState)
    (h : insertInvoice s inv = Except.ok s2) :
    (s2.invoices = s.invoices ∨ s2.invoices = s.invoices ++
      [⟨s.nextInvoiceId, inv.customer_id, inv.amount, statusStr inv.status, inv.date⟩])
    ∧ s2.users = s.users ∧ s2.customers = s.customers ∧ s2.revenue = s.revenue := by
  unfold insertInvoice at h
  dsimp only at h
  split at h
  · cases h
    exact ⟨Or.inl rfl, rfl, rfl, rfl⟩
  · cases h
    exact ⟨Or.inr rfl, rfl, rfl, rfl⟩

/-- After a successful batch of invoice inserts, every stored invoice row
either predates the batch or carries the customer_id and status string of
some fixture invoice, and the other tables are untouched. -/
theorem seedInvoicesFrom_ok (invs : List Invoice) (s s2 : DBState)
    (h : seedInvoicesFrom invs s = Except.ok s2) :
    (∀ r ∈ s2.invoices, r ∈ s.invoices ∨ ∃ inv ∈ invs,
      r.customer_id = inv.customer_id ∧ r.status = statusStr inv.status)
    ∧ s2.users = s.users ∧ s2.customers = s.customers ∧ s2.revenue = s.revenue := by
  induction invs generalizing s with
  | nil =>
    unfold seedInvoicesFrom at h
    cases h
    exact ⟨fun r hr => Or.inl hr, rfl, rfl, rfl⟩
  | cons inv rest ih =>
    unfold seedInvoicesFrom at h
    split at h
    next e heq => cases h
    next st heq =>
      obtain ⟨hinv, hu, hc, hrev⟩ := insertInvoice_ok s inv st heq
      obtain ⟨ihinv, ihu, ihc, ihrev⟩ := ih st h
      refine ⟨?_, by rw [ihu, hu], by rw [ihc, hc], by rw [ihrev, hrev]⟩
      intro r hr
      rcases ihinv r hr with hmem | ⟨inv2, hinv2, hprop⟩
      · rcases hinv with h1 | h1
        · rw [h1] at hmem
          exact Or.inl hmem
        · rw [h1] at hmem
          rcases List.mem_append.mp hmem with h2 | h2
          · exact Or.inl h2
          · rw [List.mem_singleton.mp h2]
            exact Or.inr ⟨inv, List.mem_cons_self inv rest, rfl, rfl⟩
      · exact Or.inr ⟨inv2, List.mem_cons_of_mem inv hinv2, hprop⟩

/-- A revenue insert cannot fail and leaves the other tables untouched. -/
theorem insertRevenue_ok (s : DBState) (rev : Revenue) (s2 : DBState)
    (h : insertRevenue s rev = Except.ok s2) :
    s2.users = s.users ∧ s2.customers = s.customers ∧ s2.invoices = s.invoices
    ∧ s2.nextInvoiceId = s.nextInvoiceId := by
  unfold insertRevenue at h
  split at h
  · cases h
    exact ⟨rfl, rfl, rfl, rfl⟩
  · cases h
    exact ⟨rfl, rfl, rfl, rfl⟩

/-- A successful batch of revenue inserts leaves the other tables
untouched. -/
theorem seedRevenueFrom_ok (rs : List Revenue) (s s2 : DBState)
    (h : seedRevenueFrom rs s = Except.ok s2) :
    s2.users = s.users ∧ s2.customers = s.customers ∧ s2.invoices = s.invoices
    ∧ s2.nextInvoiceId = s.nextInvoiceId := by
  induction rs generalizing s with
  | nil =>
    unfold seedRevenueFrom at h
    cases h
    exact ⟨rfl, rfl, rfl, rfl⟩
  | cons rev rest ih =>
    unfold seedRevenueFrom at h
    split at h
    next e heq => cases h
    next st heq =>
      obtain ⟨hu, hc, hi, hn⟩ := insertRevenue_ok s rev st heq
      obtain ⟨ihu, ihc, ihi, ihn⟩ := ih st h
      exact ⟨by rw [ihu, hu], by rw [ihc, hc], by rw [ihi, hi], by rw [ihn, hn]⟩

/-- The combined effect of a successful run of all four seeding steps on the
users, customers and invoices tables. -/
theorem runSeeds_ok_fields (B : HashPrimitive) (fx : Fixtures) (s s4 : DBState)
    (h : runSeeds B fx s = Except.ok s4) :
    (∀ r ∈ s4.users, r ∈ s.users ∨ ∃ u ∈ fx.users, r = hashedUserRow B u)
    ∧ (∀ c ∈ fx.customers, ∃ row ∈ s4.customers, row.id = c.id)
    ∧ (∀ r ∈ s4.invoices, r ∈ s.invoices ∨ ∃ inv ∈ fx.invoices,
      r.customer_id = inv.customer_id ∧ r.status = statusStr inv.status) := by
  unfold runSeeds at h
  split at h
  next e heq => cases h
  next s1 heq =>
    split at h
    next e heq2 => cases h
    next s2 heq2 =>
      split at h
      next e heq3 => cases h
      next s3 heq3 =>
        obtain ⟨h1u, h1c, h1i, h1rev, h1n⟩ := seedUsersFrom_ok B fx.users s s1 heq
        obtain ⟨h2pres, h2mono, h2u, h2i, h2rev, h2n⟩ := seedCustomersFrom_ok fx.customers s1 s2 heq2
        obtain ⟨h3i, h3u, h3c, h3rev⟩ := seedInvoicesFrom_ok fx.invoices s2 s3 heq3
        obtain ⟨h4u, h4c, h4i, h4n⟩ := seedRevenueFrom_ok fx.revenue s3 s4 h
        refine ⟨?_, ?_, ?_⟩
        · intro r hr
          rw [h4u, h3u, h2u] at hr
          exact h1u r hr
        · intro c hc
          obtain ⟨row, hrow, hid⟩ := h2pres c hc
          refine ⟨row, ?_, hid⟩
          rw [h4c, h3c]
          exact hrow
        · intro r hr
          rw [h4i] at hr
          rcases h3i r hr with hmem | hfix
          · rw [h2i, h1i] at hmem
            exact Or.inl hmem
          · exact Or.inr hfix

/-- The trace of the catch block: whatever had executed, then the ROLLBACK
statement (attempted whether or not it succeeds). -/
theorem catchBlock_trace (env : Env) (s : DBState) (e : SqlError) (tr : List TxAction) :
    (catchBlock env s e tr).trace = tr ++ [TxAction.rollbackTx] := by
  unfold catchBlock
  cases env.rollbackErr <;> rfl

/-- C1: Invoking the seed routine twice against the same empty database is
claimed to yield the same final row counts as invoking it once.  Evaluating
the code: the first invocation on the one-user/one-customer/one-invoice/
one-revenue fixture succeeds with row counts (1, 1, 1, 1); the second
invocation returns the same success message, but because the invoices insert
supplies no id column, the invoice is re-inserted under a fresh generated id
and the final row counts are (1, 1, 2, 1) — the invoices count changed. -/
theorem C1_second_invocation_duplicates_invoices :
    (GET modelBcrypt env0 fx1 emptyDB).outcome = Except.ok (state1, successResponse)
    ∧ rowCounts state1 = (1, 1, 1, 1)
    ∧ outcomeResponse (GET modelBcrypt env0 fx1 state1) = some successResponse
    ∧ (outcomeState (GET modelBcrypt env0 fx1 state1)).map rowCounts = some (1, 1, 2, 1) := by
  decide

/-- C2: whenever some seeding step throws (so BEGIN had succeeded) and the
ROLLBACK statement executes normally, the invocation returns the 500 failure
response carrying the triggering error, over exactly the pre-invocation
state — so every table's row count equals its pre-invocation count. -/
theorem C2_rollback_on_seed_failure (B : HashPrimitive) (env : Env) (fx : Fixtures)
    (s : DBState) (e : SqlError) (hb : env.beginErr = none) (hrb : env.rollbackErr = none)
    (h : runSeeds B fx s = Except.error e) :
    (GET B env fx s).outcome = Except.ok (s, failureResponse e) := by
  obtain ⟨tr, htr⟩ := GET_of_seedError B env fx s e hb h
  rw [htr]
  exact catchBlock_outcome_rollbackOk env s e tr hrb

/-- Witness for C2: on the duplicate-email fixture the users step throws a
unique violation, and GET returns it as the 500 response over the unchanged
empty database. -/
theorem C2_rollback_on_seed_failure_witness :
    (GET modelBcrypt env0 fxDup emptyDB).outcome =
      Except.ok (emptyDB, failureResponse (SqlError.uniqueViolation "users_email_key")) :=
  C2_rollback_on_seed_failure modelBcrypt env0 fxDup emptyDB
    (SqlError.uniqueViolation "users_email_key") (by decide) (by decide) (by decide)

/-- C3: if all four seeding steps succeed (and BEGIN/COMMIT execute
normally), the response is the JSON message object with status 200; if some
step fails (and ROLLBACK executes normally), the response is the JSON error
object with status 500 carrying the triggering error. -/
theorem C3_response_shape (B : HashPrimitive) (env : Env) (fx : Fixtures) (s : DBState) :
    (∀ s4, env.beginErr = none → env.commitErr = none → runSeeds B fx s = Except.ok s4 →
      (GET B env fx s).outcome = Except.ok (s4, successResponse))
    ∧ (∀ e, env.beginErr = none → env.rollbackErr = none → runSeeds B fx s = Except.error e →
      (GET B env fx s).outcome = Except.ok (s, failureResponse e)) := by
  constructor
  · intro s4 hb hc h
    rw [GET_of_success B env fx s s4 hb hc h]
  · intro e hb hrb h
    obtain ⟨tr, htr⟩ := GET_of_seedError B env fx s e hb h
    rw [htr]
    exact catchBlock_outcome_rollbackOk env s e tr hrb

/-- Witness for C3: both branches at concrete inputs — the good fixture
yields the 200 message response, the duplicate-email fixture yields the 500
error response. -/
theorem C3_response_shape_witness :
    (GET modelBcrypt env0 fx1 emptyDB).outcome = Except.ok (state1, successResponse)
    ∧ (GET modelBcrypt env0 fxDup emptyDB).outcome =
      Except.ok (emptyDB, failureResponse (SqlError.uniqueViolation "users_email_key")) :=
  ⟨(C3_response_shape modelBcrypt env0 fx1 emptyDB).1 state1 (by decide) (by decide) (by decide),
    (C3_response_shape modelBcrypt env0 fxDup emptyDB).2
      (SqlError.uniqueViolation "users_email_key") (by decide) (by decide) (by decide)⟩

/-- C10: when a seeding step throws and the subsequent ROLLBACK statement
itself also fails, GET returns no response at all — the rollback failure
(not the seeding error) escapes the handler. -/
theorem C10_rollback_failure_propagates (B : HashPrimitive) (env : Env) (fx : Fixtures)
    (s : DBState) (e e2 : SqlError) (hb : env.beginErr = none)
    (h : runSeeds B fx s = Except.error e) (hrb : env.rollbackErr = some e2) :
    (GET B env fx s).outcome = Except.error e2 := by
  obtain ⟨tr, htr⟩ := GET_of_seedError B env fx s e hb h
  rw [htr]
  exact catchBlock_outcome_rollbackFail env s e e2 tr hrb

/-- Witness for C10: the duplicate-email fixture under the failing-rollback
environment makes the rollback failure escape the handler. -/
theorem C10_rollback_failure_propagates_witness :
    (GET modelBcrypt envRB fxDup emptyDB).outcome =
      Except.error (SqlError.dbFailure "rollback failed") :=
  C10_rollback_failure_propagates modelBcrypt envRB fxDup emptyDB
    (SqlError.uniqueViolation "users_email_key") (SqlError.dbFailure "rollback failed")
    (by decide) (by decide) (by decide)

/-- C4: for every hash primitive satisfying the bcrypt contract and every
invocation from the empty database that returns a response, every stored
user row's password is the fixed-cost-10 hash of some fixture user's
plaintext, applied before the insert: it is never equal to that plaintext
and verifies against it under the hash check. -/
theorem C4_passwords_hashed (B : HashPrimitive) (env : Env) (fx : Fixtures)
    (s2 : DBState) (r : Response)
    (h : (GET B env fx emptyDB).outcome = Except.ok (s2, r)) :
    ∀ row ∈ s2.users, ∃ u ∈ fx.users, row.password = B.hash u.password 10
      ∧ row.password ≠ u.password ∧ B.compare u.password row.password = true := by
  intro row hrow
  rcases GET_outcome_ok_inv B env fx emptyDB s2 r h with hs | hrun
  · rw [hs] at hrow
    exact absurd hrow (List.not_mem_nil row)
  · obtain ⟨hu, _, _⟩ := runSeeds_ok_fields B fx emptyDB s2 hrun
    rcases hu row hrow with hmem | ⟨u, humem, hrw⟩
    · exact absurd hmem (List.not_mem_nil row)
    · refine ⟨u, humem, ?_, ?_, ?_⟩
      · rw [hrw]
        rfl
      · rw [hrw]
        exact B.hash_ne u.password 10
      · rw [hrw]
        exact B.compare_hash u.password 10

/-- Witness for C4: the stored user row of the `fx1` scenario carries the
hash of the fixture plaintext, differs from it, and verifies against it. -/
theorem C4_passwords_hashed_witness :
    ∃ u ∈ fx1.users, rowW.password = modelBcrypt.hash u.password 10
      ∧ rowW.password ≠ u.password ∧ modelBcrypt.compare u.password rowW.password = true :=
  C4_passwords_hashed modelBcrypt env0 fx1 state1 successResponse (by decide) rowW (by decide)

/-- C8: every invoice row present after an invocation from the empty
database that returned a response has a status that is exactly one of the
two enumeration values. -/
theorem C8_status_enumeration (B : HashPrimitive) (env : Env) (fx : Fixtures)
    (s2 : DBState) (r : Response)
    (h : (GET B env fx emptyDB).outcome = Except.ok (s2, r)) :
    ∀ row ∈ s2.invoices, row.status = "pending" ∨ row.status = "paid" := by
  intro row hrow
  rcases GET_outcome_ok_inv B env fx emptyDB s2 r h with hs | hrun
  · rw [hs] at hrow
    exact absurd hrow (List.not_mem_nil row)
  · obtain ⟨_, _, hi⟩ := runSeeds_ok_fields B fx emptyDB s2 hrun
    rcases hi row hrow with hmem | ⟨inv, _, _, hst⟩
    · exact absurd hmem (List.not_mem_nil row)
    · rw [hst]
      cases inv.status with
      | pending => exact Or.inl rfl
      | paid => exact Or.inr rfl

/-- Witness for C8: the invoice row stored in the `fx1` scenario has status
"pending". -/
theorem C8_status_enumeration_witness :
    invRowW.status = "pending" ∨ invRowW.status = "paid" :=
  C8_status_enumeration modelBcrypt env0 fx1 state1 successResponse (by decide) invRowW
    (by decide)

/-- C6 counterexample: the seed routine accepts a fixture whose only invoice
references a customer id carried by no customer fixture; the invocation
succeeds (no foreign-key constraint exists on invoices.customer_id), the
invoices table holds one row, and that row references no existing customer
row — so the claim fails as stated for this accepted fixture list. -/
theorem C6_counterexample_eval :
    outcomeResponse (GET modelBcrypt env0 fxBadFk emptyDB) = some successResponse
    ∧ (outcomeState (GET modelBcrypt env0 fxBadFk emptyDB)).map
        (fun s => s.invoices.length) = some 1
    ∧ (outcomeState (GET modelBcrypt env0 fxBadFk emptyDB)).map
        invoicesReferenceCustomers = some false := by
  decide

/-- C6 amended: for every fixture list in which each invoice's customer_id
is the id of some customer fixture, every invoice row present after an
invocation from the empty database that returned a response references an
existing customer row. -/
theorem C6_fk_of_fixture_refs (B : HashPrimitive) (env : Env) (fx : Fixtures)
    (s2 : DBState) (r : Response)
    (hfx : ∀ inv ∈ fx.invoices, ∃ c ∈ fx.customers, c.id = inv.customer_id)
    (h : (GET B env fx emptyDB).outcome = Except.ok (s2, r)) :
    invoicesReferenceCustomers s2 = true := by
  rcases GET_outcome_ok_inv B env fx emptyDB s2 r h with hs | hrun
  · rw [hs]
    decide
  · obtain ⟨_, hcust, hinv⟩ := runSeeds_ok_fields B fx emptyDB s2 hrun
    unfold invoicesReferenceCustomers
    rw [List.all_eq_true]
    intro row hrow
    rcases hinv row hrow with hmem | ⟨inv, hinvmem, hcid, _⟩
    · exact absurd hmem (List.not_mem_nil row)
    · obtain ⟨c, hcmem, hcid2⟩ := hfx inv hinvmem
      obtain ⟨crow, hcrow, hcrowid⟩ := hcust c hcmem
      rw [List.any_eq_true]
      refine ⟨crow, hcrow, ?_⟩
      rw [beq_iff_eq, hcrowid, hcid2, hcid]

/-- Witness for C6 amended: in the `fx1` scenario the invoice fixture
references the customer fixture, and the seeded state satisfies the
foreign-key property. -/
theorem C6_fk_of_fixture_refs_witness :
    invoicesReferenceCustomers state1 = true :=
  C6_fk_of_fixture_refs modelBcrypt env0 fx1 state1 successResponse (by decide) (by decide)

/-- C5 counterexample: on the duplicate-email fixture a constraint violation
raised on a user insert (unique email, not covered by the ON CONFLICT (id)
arbiter) makes the users seeding step throw, and the invocation fails with
the 500 response carrying that violation — the violation is not suppressed. -/
theorem C5_counterexample_eval :
    runSeeds modelBcrypt fxDup emptyDB =
      Except.error (SqlError.uniqueViolation "users_email_key")
    ∧ (GET modelBcrypt env0 fxDup emptyDB).outcome =
      Except.ok (emptyDB, failureResponse (SqlError.uniqueViolation "users_email_key")) := by
  decide

/-- C5 amended: a conflict on the insert's ON CONFLICT target column —
users.id, customers.id, the generated invoices id, revenue.month — is
suppressed by conflict-skipping: the row is skipped silently, with no update
and no error (only the invoices insert still advances the id generator). -/
theorem C5_conflict_skip (B : HashPrimitive) (s : DBState) :
    (∀ u : User, s.users.any (fun r => r.id == u.id) = true →
      insertUser B s u = Except.ok s)
    ∧ (∀ c : Customer, s.customers.any (fun r => r.id == c.id) = true →
      insertCustomer s c = Except.ok s)
    ∧ (∀ inv : Invoice, s.invoices.any (fun r => r.id == s.nextInvoiceId) = true →
      insertInvoice s inv = Except.ok { s with nextInvoiceId := s.nextInvoiceId + 1 })
    ∧ (∀ rev : Revenue, s.revenue.any (fun r => r.month == rev.month) = true →
      insertRevenue s rev = Except.ok s) := by
  refine ⟨?_, ?_, ?_, ?_⟩
  · intro u hu
    simp [insertUser, hu]
  · intro c hc
    simp [insertCustomer, hc]
  · intro inv hinv
    simp [insertInvoice, hinv]
  · intro rev hrev
    simp [insertRevenue, hrev]

/-- Witness for C5 amended: re-inserting the `fx1` user against the seeded
state hits the id conflict and is skipped silently. -/
theorem C5_conflict_skip_witness :
    insertUser modelBcrypt state1
      ⟨"410544b2-4001-4271-9855-fec4b6a6442a", "User", "user@nextmail.com", "123456"⟩ =
      Except.ok state1 :=
  (C5_conflict_skip modelBcrypt state1).1
    ⟨"410544b2-4001-4271-9855-fec4b6a6442a", "User", "user@nextmail.com", "123456"⟩
    (by decide)

/-- C7: every invocation of GET issues BEGIN first, and the group-seeding
steps it executes are exactly a prefix of the fixed order users, customers,
invoices, revenue; when BEGIN, all four steps and COMMIT succeed, the trace
is exactly BEGIN, the four steps in that order, COMMIT. -/
theorem C7_sequential_order (B : HashPrimitive) (env : Env) (fx : Fixtures) (s : DBState) :
    ((GET B env fx s).trace.head? = some TxAction.beginTx
      ∧ ∃ n, n ≤ 4 ∧ stepsOf (GET B env fx s).trace = seedOrder.take n)
    ∧ (∀ s4, env.beginErr = none → env.commitErr = none → runSeeds B fx s = Except.ok s4 →
      (GET B env fx s).trace = [TxAction.beginTx, TxAction.runStep SeedStep.users,
        TxAction.runStep SeedStep.customers, TxAction.runStep SeedStep.invoices,
        TxAction.runStep SeedStep.revenue, TxAction.commitTx]) := by
  constructor
  · unfold GET
    split
    · rw [catchBlock_trace]
      exact ⟨rfl, 0, by omega, rfl⟩
    · split
      · rw [catchBlock_trace]
        exact ⟨rfl, 1, by omega, rfl⟩
      · split
        · rw [catchBlock_trace]
          exact ⟨rfl, 2, by omega, rfl⟩
        · split
          · rw [catchBlock_trace]
            exact ⟨rfl, 3, by omega, rfl⟩
          · split
            · rw [catchBlock_trace]
              exact ⟨rfl, 4, by omega, rfl⟩
            · split
              · rw [catchBlock_trace]
                exact ⟨rfl, 4, by omega, rfl⟩
              · exact ⟨rfl, 4, by omega, rfl⟩
  · intro s4 hb hc h
    rw [GET_of_success B env fx s s4 hb hc h]

/-- Witness for C7: the successful `fx1` invocation produces the full
six-statement trace in order. -/
theorem C7_sequential_order_witness :
    (GET modelBcrypt env0 fx1 emptyDB).trace = [TxAction.beginTx,
      TxAction.runStep SeedStep.users, TxAction.runStep SeedStep.customers,
      TxAction.runStep SeedStep.invoices, TxAction.runStep SeedStep.revenue,
      TxAction.commitTx] :=
  (C7_sequential_order modelBcrypt env0 fx1 emptyDB).2 state1 (by decide) (by decide)
    (by decide)

/-- C9: when every stored invoice id is below the generator counter (as in
every state the routine reaches from the empty database), the invoices
insert never hits its ON CONFLICT (id) clause: it always appends one row
whose id is the freshly generated counter value, that value matches no
stored row's id, the freshness invariant is preserved, and the fixture
invoice's id field is never read — changing it cannot change the result. -/
theorem C9_generated_ids (s : DBState) (inv : Invoice) (h : invoiceIdsFresh s = true) :
    insertInvoice s inv = Except.ok { s with
      invoices := s.invoices ++
        [⟨s.nextInvoiceId, inv.customer_id, inv.amount, statusStr inv.status, inv.date⟩],
      nextInvoiceId := s.nextInvoiceId + 1 }
    ∧ (∀ r ∈ s.invoices, r.id ≠ s.nextInvoiceId)
    ∧ invoiceIdsFresh { s with
      invoices := s.invoices ++
        [⟨s.nextInvoiceId, inv.customer_id, inv.amount, statusStr inv.status, inv.date⟩],
      nextInvoiceId := s.nextInvoiceId + 1 } = true
    ∧ (∀ id2, insertInvoice s { inv with id := id2 } = insertInvoice s inv) := by
  have hlt : ∀ r ∈ s.invoices, r.id < s.nextInvoiceId := by
    intro r hr
    exact of_decide_eq_true (List.all_eq_true.mp h r hr)
  have hnc : s.invoices.any (fun r => r.id == s.nextInvoiceId) = false := by
    by_contra hcon
    rw [Bool.not_eq_false, List.any_eq_true] at hcon
    obtain ⟨r, hr, hbeq⟩ := hcon
    rw [beq_iff_eq] at hbeq
    have := hlt r hr
    omega
  refine ⟨?_, ?_, ?_, ?_⟩
  · simp [insertInvoice, hnc]
  · intro r hr
    have := hlt r hr
    omega
  · unfold invoiceIdsFresh
    rw [List.all_eq_true]
    intro r hr
    rcases List.mem_append.mp hr with h1 | h1
    · have := hlt r h1
      simp only [decide_eq_true_eq]
      omega
    · rw [List.mem_singleton.mp h1]
      simp
  · intro id2
    rfl

/-- Witness for C9: inserting an invoice fixture into the empty database
appends one row under the generated id 0 and advances the counter. -/
theorem C9_generated_ids_witness :
    insertInvoice emptyDB invW = Except.ok
      { users := [], customers := [],
        invoices := [⟨0, "cust-1", 100, "paid", "2024-01-01"⟩],
        revenue := [], nextInvoiceId := 1 } :=
  (C9_generated_ids emptyDB invW (by decide)).1
